import Mathlib

/-!
Shallow embedding of the Neon Archer simulation core.

Sources:
  * `src/unnamed/part_000` (second half, `enemies.ts`): enemy archetype table
    and the `createEnemy` factory.
  * `src/unnamed/part_001` (`GameCanvas.tsx`): difficulty table, the `shoot`
    action, `spawnBombExplosion`, and the per-frame `loop` (wave/spawn timers,
    reload countdown, power-up timer, enemy movement/bow-contact pass,
    projectile-hit pass, removal, power-up pickup).

Modelling conventions:
  * JS numbers are embedded as `ℚ` (positions, velocities, timers that take
    fractional values), `ℤ` (counters that are decremented and compared with
    `<= 0`) or `ℕ` (counters that are guarded by `> 0` before decrementing).
    Decimal literals such as `0.017` become the exact rationals.
  * Comparisons of the form `Math.sqrt s < r` with `r > 0` are embedded as
    `s < r ^ 2`, and `Math.sqrt s === 0` as `s = 0`; both rewrites are exact
    for the real square root.
  * A division whose divisor is `Math.sqrt s` with `s = 0` produces NaN in
    JS; the movement-pattern steps return `Option` and yield `none` in
    exactly that situation.  No claim depends on values computed after a NaN
    appears.
  * `Math.random()` draws, and the values of `Math.sqrt` / `Math.cos` /
    `Math.sin` / `Math.atan2` that flow into stored state (but whose exact
    value no claim depends on), are passed in as explicit oracle arguments.
  * Purely cosmetic data (colors, shapes, labels, particle positions, the
    text of floating score labels) is reduced to counts: the state tracks how
    many particles / floating texts exist, matching the number the code
    pushes.
  * The frame-local arrays `deadEnemies` / `deadProjectiles` are carried in
    the state so that the passes of one frame can be composed; `onGameOver`
    invocations are counted in `gameOverCalls`.
-/

namespace NeonArcher

/-- Movement pattern tags, from the `pattern` union type in `enemies.ts`. -/
inductive Pattern where
  | straight | zigzag | spiral | teleport | chase | bounce | split
deriving DecidableEq, Repr

/-- Static enemy archetype data (the `EnemyType` fields the simulation reads;
display-only fields such as color and shape are omitted). -/
structure EnemyType where
  id : String
  maxHp : ℤ
  speed : ℚ
  damage : ℚ
  radius : ℚ
  points : ℤ
  pattern : Pattern
deriving DecidableEq, Repr

/-- A live enemy: archetype stats plus the runtime fields of `Enemy`. -/
structure Enemy where
  id : String
  maxHp : ℤ
  hp : ℤ
  speed : ℚ
  damage : ℚ
  radius : ℚ
  points : ℤ
  pattern : Pattern
  x : ℚ
  y : ℚ
  vx : ℚ
  vy : ℚ
  angle : ℚ
  zigzagTimer : ℕ
  teleportTimer : ℚ
  splitDone : Bool
  pulseRadius : ℚ
  pulseGrowing : Bool
  flashTimer : ℕ
deriving DecidableEq, Repr

/-- The static part of a live enemy (what `createEnemy` reads from its
`type` argument when an `Enemy` is passed, as in the teleport relocation). -/
def Enemy.toType (e : Enemy) : EnemyType :=
  { id := e.id, maxHp := e.maxHp, speed := e.speed, damage := e.damage,
    radius := e.radius, points := e.points, pattern := e.pattern }

/-- Projectile, from `enemies.ts`. -/
structure Projectile where
  x : ℚ
  y : ℚ
  vx : ℚ
  vy : ℚ
  radius : ℚ
  trail : List (ℚ × ℚ)
  piercing : Bool
deriving DecidableEq, Repr

/-- Power-up kinds, from the `PowerUp` interface in `GameCanvas.tsx`. -/
inductive PowerKind where
  | multi | pierce | rapid | bomb
deriving DecidableEq, Repr

/-- A dropped power-up pickup. -/
structure PowerUp where
  x : ℚ
  y : ℚ
  kind : PowerKind
  radius : ℚ
  angle : ℚ
  life : ℤ
  pulsePhase : ℚ
deriving DecidableEq, Repr

/-- One difficulty profile row of the `DIFFICULTY` table in
`GameCanvas.tsx` (`part_001`). -/
structure Difficulty where
  spawnRate : ℕ
  enemySpeedMult : ℚ
  playerDamageMult : ℚ
  maxArrows : ℤ
  reloadTime : ℕ
deriving DecidableEq, Repr

/-- The `DIFFICULTY.easy` row. -/
def easyD : Difficulty :=
  { spawnRate := 180, enemySpeedMult := 7/10, playerDamageMult := 6/10,
    maxArrows := 12, reloadTime := 150 }

/-- The `DIFFICULTY.normal` row. -/
def normalD : Difficulty :=
  { spawnRate := 110, enemySpeedMult := 1, playerDamageMult := 1,
    maxArrows := 8, reloadTime := 180 }

/-- The `DIFFICULTY.hard` row. -/
def hardD : Difficulty :=
  { spawnRate := 65, enemySpeedMult := 14/10, playerDamageMult := 14/10,
    maxArrows := 5, reloadTime := 220 }

/-- The `scout` archetype (`ENEMY_TYPES[0]`). -/
def scoutType : EnemyType :=
  { id := "scout", maxHp := 1, speed := 25/10, damage := 10, radius := 14,
    points := 10, pattern := .straight }

/-- The `tank` archetype (`ENEMY_TYPES[1]`). -/
def tankType : EnemyType :=
  { id := "tank", maxHp := 5, speed := 1, damage := 25, radius := 24,
    points := 40, pattern := .straight }

/-- The `zigzagger` archetype (`ENEMY_TYPES[2]`). -/
def zigzaggerType : EnemyType :=
  { id := "zigzagger", maxHp := 2, speed := 2, damage := 15, radius := 16,
    points := 25, pattern := .zigzag }

/-- The `ghost` archetype (`ENEMY_TYPES[3]`). -/
def ghostType : EnemyType :=
  { id := "ghost", maxHp := 3, speed := 18/10, damage := 20, radius := 18,
    points := 35, pattern := .teleport }

/-- The `splitter` archetype (`ENEMY_TYPES[4]`). -/
def splitterType : EnemyType :=
  { id := "splitter", maxHp := 4, speed := 15/10, damage := 18, radius := 20,
    points := 50, pattern := .straight }

/-- The `berserker` archetype (`ENEMY_TYPES[5]`). -/
def berserkerType : EnemyType :=
  { id := "berserker", maxHp := 3, speed := 35/10, damage := 30, radius := 17,
    points := 60, pattern := .chase }

/-- The `bouncer` archetype (`ENEMY_TYPES[6]`). -/
def bouncerType : EnemyType :=
  { id := "bouncer", maxHp := 3, speed := 22/10, damage := 15, radius := 15,
    points := 45, pattern := .bounce }

/-- The `ENEMY_TYPES` array. -/
def ENEMY_TYPES : List EnemyType :=
  [scoutType, tankType, zigzaggerType, ghostType, splitterType,
   berserkerType, bouncerType]

/-- The `Math.random()` draws and transcendental-function values consumed by
one `createEnemy` call: the edge choice `Math.floor(Math.random()*4)`, the
position draw along that edge, the speed-jitter draw, the `teleportTimer`
draw, the `atan2` aim angle toward board center and its cosine/sine. -/
structure SpawnRnd where
  side : Fin 4
  rPos : ℚ
  rSpeed : ℚ
  rTele : ℚ
  aimAngle : ℚ
  aimCos : ℚ
  aimSin : ℚ
deriving DecidableEq, Repr

/-- The random edge position chosen by `createEnemy` (margin 60 outside the
canvas; `rPos` stands for the `Math.random()` draw along the edge). -/
def edgePos (canvasW canvasH : ℚ) (side : Fin 4) (rPos : ℚ) : ℚ × ℚ :=
  match side with
  | 0 => (rPos * canvasW, -60)
  | 1 => (canvasW + 60, rPos * canvasH)
  | 2 => (rPos * canvasW, canvasH + 60)
  | 3 => (-60, rPos * canvasH)

/-- The factory `createEnemy(type, canvasW, canvasH, overrides?)` from
`enemies.ts`.
`ov` models the `overrides` object, which at every call site is either
absent or `{x, y}`.  Note the returned `speed` field is the template speed
(the jittered `speed` local only scales the velocity), and `hp` starts at
`maxHp`. -/
def createEnemy (t : EnemyType) (canvasW canvasH : ℚ) (rnd : SpawnRnd)
    (ov : Option (ℚ × ℚ)) : Enemy :=
  let p := edgePos canvasW canvasH rnd.side rnd.rPos
  let spd := t.speed * (85/100 + rnd.rSpeed * (3/10))
  { id := t.id, maxHp := t.maxHp, hp := t.maxHp, speed := t.speed,
    damage := t.damage, radius := t.radius, points := t.points,
    pattern := t.pattern,
    x := (ov.map Prod.fst).getD p.1,
    y := (ov.map Prod.snd).getD p.2,
    vx := rnd.aimCos * spd,
    vy := rnd.aimSin * spd,
    angle := rnd.aimAngle,
    zigzagTimer := 0,
    teleportTimer := rnd.rTele * 180,
    splitDone := false,
    pulseRadius := t.radius,
    pulseGrowing := true,
    flashTimer := 0 }

/-- Rounding `Math.round` on the rationals that arise from the score formula
(JS rounds half-up). -/
def jsRound (q : ℚ) : ℤ := ⌊q + 1/2⌋

/-- The engine's root mutable state `s` in `GameCanvas.tsx` (`part_001`).
`particles` and `floats` count the live cosmetic entities; `deadEnemies` and
`deadProjectiles` are the frame-local removal marks; `gameOverCalls` counts
invocations of the `onGameOver` callback. -/
structure S where
  hp : ℚ
  score : ℤ
  wave : ℕ
  arrows : ℤ
  maxArrows : ℤ
  reloading : Bool
  reloadProgress : ℚ
  reloadTimer : ℤ
  spawnTimer : ℕ
  waveTimer : ℕ
  enemies : List Enemy
  projectiles : List Projectile
  particles : ℕ
  floats : ℕ
  powerups : List PowerUp
  alive : Bool
  bowPulse : ℕ
  shootCooldown : ℕ
  combo : ℕ
  comboTimer : ℕ
  killStreak : ℕ
  shakePower : ℚ
  activePowerup : Option PowerKind
  powerupTimer : ℕ
  waveAnnounce : ℕ
  totalKills : ℕ
  nextPowerupKill : ℕ
  deadEnemies : List ℕ
  deadProjectiles : List ℕ
  gameOverCalls : ℕ
deriving DecidableEq, Repr

/-- The freshly reset state for a normal-difficulty session
(the reset block at the top of the `useEffect` in `part_001`). -/
def gameInit : S :=
  { hp := 100, score := 0, wave := 1, arrows := 8, maxArrows := 8,
    reloading := false, reloadProgress := 0, reloadTimer := 0,
    spawnTimer := 0, waveTimer := 0, enemies := [], projectiles := [],
    particles := 0, floats := 0, powerups := [], alive := true,
    bowPulse := 0, shootCooldown := 0, combo := 0, comboTimer := 0,
    killStreak := 0, shakePower := 0, activePowerup := none,
    powerupTimer := 0, waveAnnounce := 0, totalKills := 0,
    nextPowerupKill := 10, deadEnemies := [], deadProjectiles := [],
    gameOverCalls := 0 }

/-- The blast `spawnBombExplosion(cx, cy)` from `part_001`: every enemy within
distance 180 of the blast point is removed, awarding `points * wave` each
(the descending-index `splice` removal is expressed as a filter), with 12
particles and one floating text per kill, then a 30-particle ring and
screen shake 14. -/
def bombExplosion (mx my : ℚ) (s : S) : S :=
  let hit := fun (e : Enemy) => (e.x - mx) ^ 2 + (e.y - my) ^ 2 < 180 ^ 2
  let killed := s.enemies.filter (fun e => decide (hit e))
  { s with
    score := killed.foldl (fun a e => a + e.points * (s.wave : ℤ)) s.score,
    particles := s.particles + 12 * killed.length + 30,
    floats := s.floats + killed.length,
    totalKills := s.totalKills + killed.length,
    enemies := s.enemies.filter (fun e => !(decide (hit e))),
    shakePower := max s.shakePower 14 }

/-- The `shoot` callback from `part_001`.  `mx my` is the pointer position,
`canvasW canvasH` the canvas size.  `aim off` stands for
`(cos a, sin a)` with `a = atan2(dy, dx) + off`; its value flows only into
projectile velocities, on which no claim depends.  Guards, the bomb branch,
the multi/pierce branches, the ammo decrement and the reload transition
follow the source line by line. -/
def shoot (d : Difficulty) (canvasW canvasH mx my : ℚ) (aim : ℚ → ℚ × ℚ)
    (s : S) : S :=
  if !s.alive || s.reloading || s.arrows ≤ 0 then s else
  let cooldown : ℕ := if s.activePowerup = some .rapid then 4 else 12
  if 0 < s.shootCooldown then s else
  let cx := canvasW / 2
  let cy := canvasH / 2
  let dx := mx - cx
  let dy := my - cy
  if dx ^ 2 + dy ^ 2 = 0 then s else
  let isPierce := s.activePowerup = some .pierce
  let isMulti := s.activePowerup = some .multi
  let s1 :=
    if s.activePowerup = some .bomb then
      let sB := bombExplosion mx my s
      { sB with activePowerup := none, powerupTimer := 0 }
    else
      let angles : List ℚ := if isMulti then [-(18/100), 0, 18/100] else [0]
      { s with projectiles := s.projectiles ++ angles.map (fun off =>
          { x := cx, y := cy,
            vx := (aim off).1 * 15, vy := (aim off).2 * 15,
            radius := if isPierce then 5 else 4,
            trail := [], piercing := isPierce }) }
  let s2 : S := { s1 with arrows := s1.arrows - 1, shootCooldown := cooldown,
                          bowPulse := 12 }
  if s2.arrows ≤ 0 then
    { s2 with reloading := true, reloadTimer := (d.reloadTime : ℤ),
              reloadProgress := 0 }
  else s2

/-- The wave/spawn-timer section at the top of `loop`
(`s.spawnTimer++; s.waveTimer++; if (s.waveTimer > 700) ...` followed by the
`waveAnnounce` decrement). -/
def waveTick (s : S) : S :=
  let s1 := { s with spawnTimer := s.spawnTimer + 1,
                     waveTimer := s.waveTimer + 1 }
  let s2 :=
    if 700 < s1.waveTimer then
      { s1 with wave := s1.wave + 1, waveTimer := 0, waveAnnounce := 150 }
    else s1
  if 0 < s2.waveAnnounce then { s2 with waveAnnounce := s2.waveAnnounce - 1 }
  else s2

/-- The reload section of `loop`: decrement the countdown, recompute
`reloadProgress = 1 - reloadTimer / reloadTime`, and on `reloadTimer <= 0`
return to ready with full arrows, progress reset to 0 and an 8-particle
burst. -/
def reloadStep (d : Difficulty) (s : S) : S :=
  if s.reloading then
    let t := s.reloadTimer - 1
    let prog : ℚ := 1 - (t : ℚ) / (d.reloadTime : ℚ)
    if t ≤ 0 then
      { s with reloadTimer := t, reloading := false, arrows := s.maxArrows,
               reloadProgress := 0, particles := s.particles + 8 }
    else
      { s with reloadTimer := t, reloadProgress := prog }
  else s

/-- The active-power-up timer section of `loop`
(`if (s.powerupTimer > 0) { s.powerupTimer--; if (s.powerupTimer === 0)
s.activePowerup = null; }`). -/
def powerupTick (s : S) : S :=
  if 0 < s.powerupTimer then
    let t := s.powerupTimer - 1
    if t = 0 then { s with powerupTimer := t, activePowerup := none }
    else { s with powerupTimer := t }
  else s

/-- The power-up pickup filter of `loop`: a pickup within pointer distance
`radius + 20` activates its kind (`bomb` gets timer 1, others 360) and is
removed; the rest are kept in order. -/
def pickupPass (mx my : ℚ) (s : S) : S :=
  s.powerups.foldl
    (fun st pu =>
      if (mx - pu.x) ^ 2 + (my - pu.y) ^ 2 < (pu.radius + 20) ^ 2 then
        { st with activePowerup := some pu.kind,
                  powerupTimer := if pu.kind = .bomb then 1 else 360,
                  particles := st.particles + 12,
                  floats := st.floats + 1 }
      else { st with powerups := st.powerups ++ [pu] })
    { s with powerups := [] }

/-- The zigzag movement case.  `flip` is the `Math.random() > 0.5` draw,
`sqrtO` supplies the value of `Math.sqrt` for the renormalization.  The
result is `none` exactly when a JS division here would produce NaN:
division by `e.speed = 0`, or renormalization of a zero vector. -/
def zigzagMove (flip : Bool) (sqrtO : ℚ → ℚ) (e : Enemy) : Option Enemy :=
  let e1 := { e with zigzagTimer := e.zigzagTimer + 1 }
  let e2 := { e1 with x := e1.x + e1.vx, y := e1.y + e1.vy }
  if e2.zigzagTimer % 35 = 0 then
    if e2.speed = 0 then none else
    let f : ℚ := if flip then 1 else -1
    let px := -e2.vy / e2.speed
    let py := e2.vx / e2.speed
    let vx1 := (e2.vx / e2.speed + px * f * (18/10)) * e2.speed * (65/100)
    let vy1 := (e2.vy / e2.speed + py * f * (18/10)) * e2.speed * (65/100)
    if vx1 ^ 2 + vy1 ^ 2 = 0 then none else
    let spd := sqrtO (vx1 ^ 2 + vy1 ^ 2)
    some { e2 with vx := vx1 / spd * e2.speed, vy := vy1 / spd * e2.speed }
  else some e2

/-- The chase movement case: ease velocity toward board center with
`accel = 0.08`, cap at `e.speed`, then move.  The distance division yields
NaN (`none`) exactly when the enemy sits at the board center; the cap
division only runs when `curSpd > e.speed`, and `curSpd`, being a real
square root, is positive there for every enemy with nonnegative speed. -/
def chaseMove (sqrtO : ℚ → ℚ) (cx cy : ℚ) (e : Enemy) : Option Enemy :=
  let dx := cx - e.x
  let dy := cy - e.y
  if dx ^ 2 + dy ^ 2 = 0 then none else
  let d := sqrtO (dx ^ 2 + dy ^ 2)
  let accel : ℚ := 8/100
  let vx := e.vx + dx / d * e.speed * accel
  let vy := e.vy + dy / d * e.speed * accel
  let curSpd := sqrtO (vx ^ 2 + vy ^ 2)
  let v : ℚ × ℚ :=
    if e.speed < curSpd then (vx / curSpd * e.speed, vy / curSpd * e.speed)
    else (vx, vy)
  some { e with vx := v.1, vy := v.2, x := e.x + v.1, y := e.y + v.2 }

/-- The spiral movement case.  `c`/`sn` stand for `cos`/`sin` of the updated
`e.angle`.  The distance division yields NaN (`none`) exactly at board
center; the renormalization yields NaN exactly when the composed vector is
zero. -/
def spiralMove (sqrtO : ℚ → ℚ) (c sn cx cy : ℚ) (e : Enemy) : Option Enemy :=
  let dx := cx - e.x
  let dy := cy - e.y
  if dx ^ 2 + dy ^ 2 = 0 then none else
  let d := sqrtO (dx ^ 2 + dy ^ 2)
  let e1 := { e with angle := e.angle + 5/100 }
  let vx1 := c * e1.speed * (8/10) + dx / d * e1.speed * (6/10)
  let vy1 := sn * e1.speed * (8/10) + dy / d * e1.speed * (6/10)
  if vx1 ^ 2 + vy1 ^ 2 = 0 then none else
  let spd := sqrtO (vx1 ^ 2 + vy1 ^ 2)
  let vx2 := vx1 / spd * e1.speed
  let vy2 := vy1 / spd * e1.speed
  some { e1 with vx := vx2, vy := vy2, x := e1.x + vx2, y := e1.y + vy2 }

/-- The teleport relocation body (the `teleportTimer <= 0` branch): reset
the countdown to `100 + Math.random() * 100`, then overwrite only `x` and
`y` with the fresh edge position produced by `createEnemy(e, W, H)`. -/
def relocate (canvasW canvasH rT : ℚ) (rnd : SpawnRnd) (e : Enemy) : Enemy :=
  let e1 := { e with teleportTimer := 100 + rT * 100 }
  let newE := createEnemy e1.toType canvasW canvasH rnd none
  { e1 with x := newE.x, y := newE.y }

/-- The teleport movement case: advance, count down, and relocate on
expiry; the second component counts the particles spawned (6 before and 6
after a relocation). -/
def teleportMove (canvasW canvasH rT : ℚ) (rnd : SpawnRnd) (e : Enemy) :
    Enemy × ℕ :=
  let e1 := { e with x := e.x + e.vx, y := e.y + e.vy,
                     teleportTimer := e.teleportTimer - 1 }
  if e1.teleportTimer ≤ 0 then (relocate canvasW canvasH rT rnd e1, 12)
  else (e1, 0)

/-- The bounce movement case: advance, then reflect off each canvas edge
with `Math.abs`, spawning 3 particles per reflection. -/
def bounceMove (canvasW canvasH : ℚ) (e : Enemy) : Enemy × ℕ :=
  let e1 := { e with x := e.x + e.vx, y := e.y + e.vy }
  let (e2, p2) :=
    if e1.x - e1.radius < 0 then ({ e1 with vx := |e1.vx| }, 3) else (e1, 0)
  let (e3, p3) :=
    if canvasW < e2.x + e2.radius then ({ e2 with vx := -|e2.vx| }, p2 + 3)
    else (e2, p2)
  let (e4, p4) :=
    if e3.y - e3.radius < 0 then ({ e3 with vy := |e3.vy| }, p3 + 3)
    else (e3, p3)
  if canvasH < e4.y + e4.radius then ({ e4 with vy := -|e4.vy| }, p4 + 3)
  else (e4, p4)

/-- The oracle inputs one enemy's movement update may consume. -/
structure MoveRnd where
  sqrtO : ℚ → ℚ
  flip : Bool
  rT : ℚ
  spawn : SpawnRnd
  spiralCos : ℚ
  spiralSin : ℚ

/-- The `switch (e.pattern)` movement dispatch of the enemy-update pass;
the second component counts particles spawned by the movement itself. -/
def moveEnemy (cx cy canvasW canvasH : ℚ) (o : MoveRnd) (e : Enemy) :
    Option (Enemy × ℕ) :=
  match e.pattern with
  | .straight | .split => some ({ e with x := e.x + e.vx, y := e.y + e.vy }, 0)
  | .zigzag => (zigzagMove o.flip o.sqrtO e).map (fun e1 => (e1, 0))
  | .chase => (chaseMove o.sqrtO cx cy e).map (fun e1 => (e1, 0))
  | .teleport => some (teleportMove canvasW canvasH o.rT o.spawn e)
  | .bounce => some (bounceMove canvasW canvasH e)
  | .spiral =>
      (spiralMove o.sqrtO o.spiralCos o.spiralSin cx cy e).map
        (fun e1 => (e1, 0))

/-- The pulse-ring animation update. -/
def pulseUpdate (e : Enemy) : Enemy :=
  if e.pulseGrowing then
    let r := e.pulseRadius + 18/100
    { e with pulseRadius := r, pulseGrowing := !(decide (e.radius + 5 < r)) }
  else
    let r := e.pulseRadius - 18/100
    { e with pulseRadius := r, pulseGrowing := decide (r < e.radius) }

/-- The out-of-bounds check at the end of the enemy-update callback
(margin 220; bounce-pattern enemies are exempt). -/
def oobCheck (canvasW canvasH : ℚ) (i : ℕ) (e : Enemy) (s : S) : S :=
  if e.pattern ≠ .bounce ∧
      (e.x < -220 ∨ canvasW + 220 < e.x ∨ e.y < -220 ∨ canvasH + 220 < e.y)
  then { s with deadEnemies := s.deadEnemies ++ [i] }
  else s

/-- One iteration of the `s.enemies.forEach` enemy-update callback of
`loop`: flash-timer decrement, movement, pulse animation, shape rotation,
bow-contact test (`sqrt ... < e.radius + 22`, embedded squared), damage
`e.damage * playerDamageMult * 0.017`, removal mark, combo/streak reset,
and — when `hp <= 0` — the game-over transition.  The JS `return` after
`onGameOver(...)` exits only this callback, so the fold continues with the
next enemy.  `none` propagates a NaN from a movement division. -/
def enemyUpdate (d : Difficulty) (cx cy canvasW canvasH : ℚ)
    (o : ℕ → MoveRnd) (i : ℕ) (s : S) : Option S :=
  match s.enemies[i]? with
  | none => some s
  | some e0 =>
    let eF := if 0 < e0.flashTimer then { e0 with flashTimer := e0.flashTimer - 1 }
              else e0
    match moveEnemy cx cy canvasW canvasH (o i) eF with
    | none => none
    | some (e1, parts) =>
      let e2 := pulseUpdate e1
      let e3 := if e2.pattern ≠ .chase then { e2 with angle := e2.angle + 12/1000 }
                else e2
      let s1 := { s with enemies := s.enemies.set i e3,
                         particles := s.particles + parts }
      if (e3.x - cx) ^ 2 + (e3.y - cy) ^ 2 < (e3.radius + 22) ^ 2 then
        let dmg := e3.damage * d.playerDamageMult * (17/1000)
        let s2 := { s1 with hp := max 0 (s1.hp - dmg),
                            particles := s1.particles + 6,
                            shakePower := max s1.shakePower 10,
                            combo := 0, comboTimer := 0, killStreak := 0,
                            deadEnemies := s1.deadEnemies ++ [i] }
        if s2.hp ≤ 0 then
          some { s2 with alive := false, gameOverCalls := s2.gameOverCalls + 1 }
        else some (oobCheck canvasW canvasH i e3 s2)
      else some (oobCheck canvasW canvasH i e3 s1)

/-- The whole enemy-update pass: fold the callback over the indices of the
enemy array (its length is fixed during this pass). -/
def enemyPass (d : Difficulty) (cx cy canvasW canvasH : ℚ)
    (o : ℕ → MoveRnd) (s : S) : Option S :=
  (List.range s.enemies.length).foldl
    (fun acc i => acc.bind (enemyUpdate d cx cy canvasW canvasH o i)) (some s)

/-- The `Math.random()` draws one kill inside the projectile-hit pass may
consume: the two split-offspring offset pairs and their `createEnemy`
draws, and the power-up drop kind and threshold increment
(`Math.floor(Math.random() * 8)`, hence `puThresh ≤ 7`). -/
structure KillRnd where
  off1x : ℚ
  off1y : ℚ
  off2x : ℚ
  off2y : ℚ
  sp1 : SpawnRnd
  sp2 : SpawnRnd
  puKind : PowerKind
  puThresh : ℕ

/-- The kill branch (`e.hp <= 0`) of the projectile-hit callback: score
`Math.round(points * wave * (1 + floor(combo/3) * 0.5))`, kill/streak/combo
bookkeeping, death particles and floating text, screen shake, the
splitter special case (two scouts near the death position, guarded by the
one-shot `splitDone` flag), the removal mark, and the power-up drop.
`e1` is the enemy after the hit was applied. -/
def killProc (canvasW canvasH : ℚ) (r : KillRnd) (ei : ℕ) (e1 : Enemy)
    (s : S) : S :=
  let earned : ℚ :=
    (e1.points : ℚ) * (s.wave : ℚ) * (1 + ((s.combo / 3 : ℕ) : ℚ) * (1/2))
  let s2 := { s with score := s.score + jsRound earned,
                     totalKills := s.totalKills + 1,
                     killStreak := s.killStreak + 1,
                     combo := s.combo + 1, comboTimer := 90,
                     particles := s.particles + 14,
                     floats := s.floats + (if 3 ≤ s.combo + 1 then 2 else 1),
                     shakePower := max s.shakePower (4 + (e1.maxHp : ℚ)) }
  let s3 : S :=
    if e1.id = "splitter" ∧ e1.splitDone = false then
      let scout := (ENEMY_TYPES.find? (fun t => t.id == "scout")).getD scoutType
      let k1 := createEnemy scout canvasW canvasH r.sp1
        (some (e1.x + (r.off1x - 1/2) * 50, e1.y + (r.off1y - 1/2) * 50))
      let k2 := createEnemy scout canvasW canvasH r.sp2
        (some (e1.x + (r.off2x - 1/2) * 50, e1.y + (r.off2y - 1/2) * 50))
      { s2 with enemies := (s2.enemies.set ei { e1 with splitDone := true })
                             ++ [k1, k2] }
    else s2
  let s4 : S :=
    if ei ∈ s3.deadEnemies then s3
    else { s3 with deadEnemies := s3.deadEnemies ++ [ei] }
  if s4.nextPowerupKill ≤ s4.totalKills then
    { s4 with nextPowerupKill := s4.nextPowerupKill + 8 + r.puThresh,
              powerups := s4.powerups ++
                [{ x := e1.x, y := e1.y, kind := r.puKind, radius := 16,
                   angle := 0, life := 360, pulsePhase := 0 }] }
  else s4

/-- One iteration of the nested projectile × enemy hit callback: skip
enemies already marked dead, test circle overlap
(`sqrt ... < p.radius + e.radius`, embedded squared), apply the hit
(`hp--`, flash), run the kill branch when `hp <= 0`, and mark non-piercing
projectiles consumed (`Set.add`, hence the membership guard). -/
def procHit (canvasW canvasH : ℚ) (r : ℕ → ℕ → KillRnd) (pi ei : ℕ)
    (s : S) : S :=
  if ei ∈ s.deadEnemies then s else
  match s.projectiles[pi]?, s.enemies[ei]? with
  | some p, some e =>
    if (p.x - e.x) ^ 2 + (p.y - e.y) ^ 2 < (p.radius + e.radius) ^ 2 then
      let e1 := { e with hp := e.hp - 1, flashTimer := 7 }
      let s1 := { s with enemies := s.enemies.set ei e1,
                         particles := s.particles + 4 }
      let s2 := if e1.hp ≤ 0 then killProc canvasW canvasH (r pi ei) ei e1 s1
                else s1
      if p.piercing then s2
      else if pi ∈ s2.deadProjectiles then s2
      else { s2 with deadProjectiles := s2.deadProjectiles ++ [pi] }
    else s
  | _, _ => s

/-- The inner `s.enemies.forEach` of the hit pass for projectile `pi`: the
index range is fixed when the forEach starts, so scouts appended by a kill
in this very sweep are not visited, while the next projectile's sweep sees
them. -/
def innerHits (canvasW canvasH : ℚ) (r : ℕ → ℕ → KillRnd) (pi : ℕ)
    (s : S) : S :=
  (List.range s.enemies.length).foldl
    (fun st ei => procHit canvasW canvasH r pi ei st) s

/-- The full projectile-hit pass (`s.projectiles.forEach`); the projectile
array itself is not mutated during the pass. -/
def hitPass (canvasW canvasH : ℚ) (r : ℕ → ℕ → KillRnd) (s : S) : S :=
  (List.range s.projectiles.length).foldl
    (fun st pi => innerHits canvasW canvasH r pi st) s

/-- Drop the elements of `l` whose index (starting at `i`) occurs in
`dead`. -/
def removeIdxsFrom (dead : List ℕ) : ℕ → List Enemy → List Enemy
  | _, [] => []
  | i, a :: as =>
      if i ∈ dead then removeIdxsFrom dead (i + 1) as
      else a :: removeIdxsFrom dead (i + 1) as

/-- Same removal for projectiles. -/
def removeProjIdxsFrom (dead : List ℕ) : ℕ → List Projectile → List Projectile
  | _, [] => []
  | i, a :: as =>
      if i ∈ dead then removeProjIdxsFrom dead (i + 1) as
      else a :: removeProjIdxsFrom dead (i + 1) as

/-- The removal step after the hit pass: deduplicate the marked indices and
delete them in descending order (expressed as an index filter), and filter
out consumed projectiles; the frame-local mark lists are fresh each
frame. -/
def removeDead (s : S) : S :=
  { s with enemies := removeIdxsFrom s.deadEnemies 0 s.enemies,
           projectiles := removeProjIdxsFrom s.deadProjectiles 0 s.projectiles,
           deadEnemies := [], deadProjectiles := [] }

/-- Health invariant for an enemy array with removal marks: health within
`[0, maxHp]`, and an enemy whose health has reached 0 is marked for
removal. -/
def InvOn (es : List Enemy) (dead : List ℕ) : Prop :=
  ∀ i e, es[i]? = some e →
    0 ≤ e.hp ∧ e.hp ≤ e.maxHp ∧ (e.hp = 0 → i ∈ dead)

/-- The invariant on the engine state's enemy array and the frame's
`deadEnemies` marks. -/
def EnemyInv (s : S) : Prop := InvOn s.enemies s.deadEnemies

/-- A fixed `createEnemy` oracle (concrete draws) for witnesses. -/
def spawn0 : SpawnRnd :=
  { side := 0, rPos := 0, rSpeed := 0, rTele := 0, aimAngle := 0,
    aimCos := 1, aimSin := 0 }

/-- A fixed movement oracle for witnesses. -/
def mv0 : MoveRnd :=
  { sqrtO := fun _ => 0, flip := true, rT := 0, spawn := spawn0,
    spiralCos := 1, spiralSin := 0 }

/-- A fixed kill oracle for witnesses. -/
def kr0 : KillRnd :=
  { off1x := 0, off1y := 0, off2x := 1, off2y := 1, sp1 := spawn0,
    sp2 := spawn0, puKind := .bomb, puThresh := 0 }

/-- A square-root oracle that is exact at the argument 25 (used by the C8
witness, whose only distance-squared value is 25). -/
def sqrt25 : ℚ → ℚ := fun q => if q = 25 then 5 else 0

/-- A scout (one-hit, straight-pattern) enemy sitting exactly at the board
center of an 800x600 canvas. -/
def scoutAtCenter : Enemy :=
  { id := "scout", maxHp := 1, hp := 1, speed := 25/10, damage := 10,
    radius := 14, points := 10, pattern := .straight, x := 400, y := 300,
    vx := 0, vy := 0, angle := 0, zigzagTimer := 0, teleportTimer := 50,
    splitDone := false, pulseRadius := 14, pulseGrowing := true,
    flashTimer := 0 }

/-- A chase-pattern enemy sitting exactly at the board center. -/
def chaseAtCenter : Enemy :=
  { scoutAtCenter with
    id := "berserker", maxHp := 3, hp := 3, speed := 35/10, damage := 30,
    radius := 17, points := 60, pattern := .chase }

/-- A spiral-pattern enemy at distance 5 (a 3-4-5 offset) from the board
center, with nonzero speed. -/
def spiralNearCenter : Enemy :=
  { scoutAtCenter with
    id := "spiraler", speed := 1, pattern := .spiral, x := 403, y := 304 }

/-- Player at 0.1 hp with two straight scouts in contact with the bow:
the concrete state on which the engine reports game over twice in one
frame. -/
def c3State : S :=
  { gameInit with hp := 1/10, enemies := [scoutAtCenter, scoutAtCenter] }

/-- A fresh splitter (one hit from death) at the board center. -/
def splitterNearDeath : Enemy :=
  { id := "splitter", maxHp := 4, hp := 1, speed := 15/10, damage := 18,
    radius := 20, points := 50, pattern := .straight, x := 400, y := 300,
    vx := 0, vy := 0, angle := 0, zigzagTimer := 0, teleportTimer := 50,
    splitDone := false, pulseRadius := 20, pulseGrowing := true,
    flashTimer := 0 }

/-- State with a single splitter inside a bomb blast radius. -/
def c6State : S := { gameInit with enemies := [splitterNearDeath] }

/-- A projectile resting on the C4 scenario enemy. -/
def c4Proj : Projectile :=
  { x := 100, y := 100, vx := 0, vy := 0, radius := 4, trail := [],
    piercing := true }

/-- A multi-hit enemy with `maxHp = m`, overlapped by the C4 scenario
projectiles. -/
def c4Enemy (m : ℕ) : Enemy :=
  { id := "dummy", maxHp := (m : ℤ), hp := (m : ℤ), speed := 0, damage := 10,
    radius := 14, points := 10, pattern := .straight, x := 100, y := 100,
    vx := 0, vy := 0, angle := 0, zigzagTimer := 0, teleportTimer := 0,
    splitDone := false, pulseRadius := 14, pulseGrowing := true,
    flashTimer := 7 }

/-- The C4 scenario: one enemy with `maxHp = m` and `n` overlapping
(piercing) projectiles in the same frame. -/
def c4State (n m : ℕ) : S :=
  { gameInit with enemies := [c4Enemy m],
                  projectiles := List.replicate n c4Proj,
                  nextPowerupKill := 1000000 }

/-- Normal-difficulty state at the instant a reload has just started
(the shot that emptied the quiver set `reloading`, `reloadTimer = 180`,
`arrows = 0`). -/
def rsNormal : S :=
  { gameInit with reloading := true, reloadTimer := 180, arrows := 0 }

/-- One-hit enemy with parametric point value at position (100, 100),
used to instantiate per-kill scoring. -/
def c5Enemy (pts : ℤ) : Enemy :=
  { id := "dummy", maxHp := 1, hp := 1, speed := 0, damage := 10,
    radius := 14, points := pts, pattern := .straight, x := 100, y := 100,
    vx := 0, vy := 0, angle := 0, zigzagTimer := 0, teleportTimer := 0,
    splitDone := false, pulseRadius := 14, pulseGrowing := true,
    flashTimer := 0 }

/-- Scoring scenario state: one overlapped one-hit enemy, given wave,
combo and score. -/
def c5State (pts sc : ℤ) (w c : ℕ) : S :=
  { gameInit with enemies := [c5Enemy pts], projectiles := [c4Proj],
                  wave := w, combo := c, score := sc,
                  nextPowerupKill := 1000000 }

/-- Bomb power-up armed (as a pickup leaves it) with one splitter inside
blast range: the C7 witness state. -/
def c7State : S :=
  { gameInit with activePowerup := some .bomb, powerupTimer := 1,
                  enemies := [splitterNearDeath] }

/-- Projectile resting on the splitter at (400, 300). -/
def c6Proj : Projectile :=
  { x := 400, y := 300, vx := 0, vy := 0, radius := 4, trail := [],
    piercing := true }

/-- One fresh splitter overlapped by one projectile. -/
def c6HitState : S :=
  { gameInit with enemies := [splitterNearDeath], projectiles := [c6Proj] }

/-! ## Helper lemmas -/

/-- A sum of two rational squares vanishes iff both terms do. -/
theorem sq_add_sq_eq_zero (a b : ℚ) : a ^ 2 + b ^ 2 = 0 ↔ a = 0 ∧ b = 0 := by
  constructor
  · intro h
    constructor
    · nlinarith [sq_nonneg a, sq_nonneg b]
    · nlinarith [sq_nonneg a, sq_nonneg b]
  · rintro ⟨ha, hb⟩
    simp [ha, hb]

/-- Rounding `Math.round` is the identity on integers. -/
theorem jsRound_intCast (z : ℤ) : jsRound (z : ℚ) = z := by
  unfold jsRound
  rw [Int.floor_eq_iff]
  constructor <;> [push_cast; push_cast] <;> linarith

/-! ## C2: shot attempts under the guard conditions are no-ops -/

/-- C2: for every engine state, a shot attempt while the player is not
alive, while reloading, with ammo 0, with the shoot cooldown still active,
or with the pointer exactly at board center leaves the state unchanged: no
projectile is created and ammo is not decremented. -/
theorem c2_shot_noop (d : Difficulty) (canvasW canvasH mx my : ℚ)
    (aim : ℚ → ℚ × ℚ) (s : S)
    (h : s.alive = false ∨ s.reloading = true ∨ s.arrows = 0 ∨
         0 < s.shootCooldown ∨ (mx = canvasW / 2 ∧ my = canvasH / 2)) :
    shoot d canvasW canvasH mx my aim s = s := by
  unfold shoot
  rcases h with h | h | h | h | ⟨hx, hy⟩
  · simp [h]
  · simp [h]
  · simp [h]
  · split_ifs <;> first | rfl | omega
  · subst hx; subst hy
    simp [shoot]

/-- C2 witness: the no-op theorem applied to a concrete reloading state. -/
theorem c2_shot_noop_witness :
    rsNormal.reloading = true ∧
    shoot normalD 800 600 500 300 (fun _ => (1, 0)) rsNormal = rsNormal :=
  ⟨by decide,
   c2_shot_noop normalD 800 600 500 300 (fun _ => (1, 0)) rsNormal
     (Or.inr (Or.inl (by decide)))⟩

/-! ## C9: wave-timer threshold -/

/-- While the incremented wave timer stays at or below 700, `waveTick` only
advances the two timers. -/
theorem wave_run (s0 : S) (h1 : s0.waveTimer = 0) (h2 : s0.waveAnnounce = 0)
    (k : ℕ) (hk : k ≤ 700) :
    waveTick^[k] s0 = { s0 with waveTimer := k,
                                spawnTimer := s0.spawnTimer + k } := by
  induction k with
  | zero =>
    simp only [Function.iterate_zero, id_eq, Nat.add_zero]
    cases s0
    simp_all
  | succ n ih =>
    have hn : n ≤ 700 := Nat.le_of_succ_le hk
    rw [Function.iterate_succ_apply', ih hn]
    unfold waveTick
    have hlt : ¬ 700 < n + 1 := by omega
    simp [hlt, h2]
    omega

/-- The 701st tick triggers the wave transition: wave + 1, timer reset,
announce window set to 150 and decremented to 149 in the same frame. -/
theorem wave_trigger (s0 : S) (h1 : s0.waveTimer = 0)
    (h2 : s0.waveAnnounce = 0) :
    waveTick^[701] s0 = { s0 with wave := s0.wave + 1, waveTimer := 0,
                                  waveAnnounce := 149,
                                  spawnTimer := s0.spawnTimer + 701 } := by
  have h700 := wave_run s0 h1 h2 700 (by omega)
  rw [show (701 : ℕ) = 700 + 1 by rfl, Function.iterate_succ_apply', h700]
  unfold waveTick
  norm_num

/-- C9 counterexample: from the fresh state, at the 700th step — the step
on which the wave timer reaches 700 — the wave has not incremented and the
timer has not reset (the code requires `waveTimer > 700`, which first holds
on step 701). -/
theorem c9_wave_counterexample :
    (waveTick^[700] gameInit).wave = 1 ∧
    (waveTick^[700] gameInit).waveTimer = 700 := by
  rw [wave_run gameInit rfl rfl 700 (by omega)]
  exact ⟨rfl, rfl⟩

/-- C9 (amended): with the wave timer starting at 0 and no announce window
active, the first 700 steps leave the wave unchanged with the timer equal
to the step count; the 701st step — the one on which the timer exceeds
700 — increments the wave by exactly 1, resets the timer to 0, and opens
the wave-announce window (set to 150 and ticked down to 149 within the
same frame, hence active). -/
theorem c9_wave_amended (s0 : S) (h1 : s0.waveTimer = 0)
    (h2 : s0.waveAnnounce = 0) (k : ℕ) (hk : k ≤ 700) :
    ((waveTick^[k] s0).wave = s0.wave ∧
     (waveTick^[k] s0).waveTimer = k ∧
     (waveTick^[k] s0).waveAnnounce = 0) ∧
    ((waveTick^[701] s0).wave = s0.wave + 1 ∧
     (waveTick^[701] s0).waveTimer = 0 ∧
     (waveTick^[701] s0).waveAnnounce = 149 ∧
     0 < (waveTick^[701] s0).waveAnnounce) := by
  rw [wave_run s0 h1 h2 k hk, wave_trigger s0 h1 h2]
  refine ⟨⟨rfl, rfl, h2⟩, rfl, rfl, rfl, ?_⟩
  norm_num

/-- C9 witness: the amended wave theorem at the fresh state, step 350. -/
theorem c9_wave_witness :
    ((waveTick^[350] gameInit).wave = gameInit.wave ∧
     (waveTick^[350] gameInit).waveTimer = 350 ∧
     (waveTick^[350] gameInit).waveAnnounce = 0) ∧
    ((waveTick^[701] gameInit).wave = gameInit.wave + 1 ∧
     (waveTick^[701] gameInit).waveTimer = 0 ∧
     (waveTick^[701] gameInit).waveAnnounce = 149 ∧
     0 < (waveTick^[701] gameInit).waveAnnounce) :=
  c9_wave_amended gameInit rfl rfl 350 (by omega)

/-! ## C1: reload duration and progress -/

/-- State of a running reload after `k` steps, `1 ≤ k < reloadTime`:
still reloading, countdown at `reloadTime - k`, progress recomputed. -/
theorem reload_run_lt (d : Difficulty) (s0 : S) (h1 : s0.reloading = true)
    (h2 : s0.reloadTimer = (d.reloadTime : ℤ)) (k : ℕ) (hk1 : 1 ≤ k)
    (hk2 : k < d.reloadTime) :
    (reloadStep d)^[k] s0 =
      { s0 with reloadTimer := (d.reloadTime : ℤ) - k,
                reloadProgress :=
                  1 - (((d.reloadTime : ℤ) - k : ℤ) : ℚ) / (d.reloadTime : ℚ) } := by
  obtain ⟨j, rfl⟩ : ∃ j, k = j + 1 := ⟨k - 1, by omega⟩
  clear hk1
  induction j with
  | zero =>
    rw [Function.iterate_one]
    unfold reloadStep
    have ht : ¬ ((d.reloadTime : ℤ) - 1 ≤ 0) := by omega
    simp only [h1, h2, if_true]
    rw [if_neg ht]
    simp [S.mk.injEq]
  | succ n ih =>
    have hn : n + 1 < d.reloadTime := by omega
    rw [Function.iterate_succ_apply', ih hn]
    unfold reloadStep
    have ht : ¬ (d.reloadTime : ℤ) - (n + 1 : ℕ) - 1 ≤ 0 := by
      push_cast; omega
    simp only [if_pos rfl, h1, if_true]
    rw [if_neg ht]
    simp only [S.mk.injEq, and_true, true_and]
    constructor <;> push_cast <;> ring

/-- The completing reload step: after exactly `reloadTime` steps the state
returns to ready with full arrows and `reloadProgress = 0`. -/
theorem reload_run_done (d : Difficulty) (s0 : S) (h1 : s0.reloading = true)
    (h2 : s0.reloadTimer = (d.reloadTime : ℤ)) (hT : 1 ≤ d.reloadTime) :
    (reloadStep d)^[d.reloadTime] s0 =
      { s0 with reloadTimer := 0, reloading := false,
                arrows := s0.maxArrows, reloadProgress := 0,
                particles := s0.particles + 8 } := by
  rcases Nat.eq_or_lt_of_le hT with hT1 | hT2
  · rw [← hT1, Function.iterate_one]
    unfold reloadStep
    have ht : s0.reloadTimer - 1 ≤ 0 := by omega
    have ht0 : s0.reloadTimer - 1 = 0 := by omega
    simp [h1, ht, ht0]
  · obtain ⟨j, hj⟩ : ∃ j, d.reloadTime = j + 1 := ⟨d.reloadTime - 1, by omega⟩
    rw [hj, Function.iterate_succ_apply',
        reload_run_lt d s0 h1 h2 j (by omega) (by omega)]
    unfold reloadStep
    have ht : (d.reloadTime : ℤ) - (j : ℕ) - 1 ≤ 0 := by
      rw [hj]; push_cast; omega
    have ht0 : (d.reloadTime : ℤ) - (j : ℕ) - 1 = 0 := by
      rw [hj]; push_cast; omega
    simp [h1, ht, ht0]

/-- C1 counterexample: for the normal difficulty (reload duration 180),
running the reload from its start state for exactly 180 steps restores the
8 arrows but leaves `reloadProgress = 0`, not 1: the completing step resets
the progress to 0 in the same frame, so the claimed value
`elapsed/duration = 1` is never the post-step progress. -/
theorem c1_reload_counterexample :
    ((reloadStep normalD)^[180] rsNormal).arrows = 8 ∧
    ((reloadStep normalD)^[180] rsNormal).reloadProgress = 0 ∧
    ((reloadStep normalD)^[180] rsNormal).reloadProgress ≠ 1 := by
  have h := reload_run_done normalD rsNormal rfl rfl (by decide)
  rw [show (180 : ℕ) = normalD.reloadTime from rfl, h]
  refine ⟨rfl, rfl, ?_⟩
  norm_num

/-- C1 (amended): once a reload starts (reloading set, countdown at the
difficulty's `reloadTime`, ammo 0), the ammo stays at 0 and
`reloadProgress = k / reloadTime` after each step `k < reloadTime`, and the
completing step — exactly step `reloadTime` — restores ammo to `maxArrows`,
ends reloading, and stores `reloadProgress = 0` (the transient in-step
value `1 - 0/reloadTime = 1` is overwritten in the same frame). -/
theorem c1_reload_amended (d : Difficulty) (s0 : S)
    (h1 : s0.reloading = true) (h2 : s0.reloadTimer = (d.reloadTime : ℤ))
    (h3 : s0.arrows = 0) (hT : 1 ≤ d.reloadTime) (k : ℕ) (hk1 : 1 ≤ k)
    (hk2 : k < d.reloadTime) :
    (((reloadStep d)^[k] s0).reloading = true ∧
     ((reloadStep d)^[k] s0).arrows = 0 ∧
     ((reloadStep d)^[k] s0).reloadProgress = (k : ℚ) / (d.reloadTime : ℚ)) ∧
    (((reloadStep d)^[d.reloadTime] s0).reloading = false ∧
     ((reloadStep d)^[d.reloadTime] s0).arrows = s0.maxArrows ∧
     ((reloadStep d)^[d.reloadTime] s0).reloadProgress = 0) := by
  rw [reload_run_lt d s0 h1 h2 k hk1 hk2, reload_run_done d s0 h1 h2 hT]
  have hTpos : 0 < d.reloadTime := hT
  have hT0 : (d.reloadTime : ℚ) ≠ 0 := Nat.cast_ne_zero.mpr hTpos.ne'
  refine ⟨⟨h1, h3, ?_⟩, rfl, rfl, rfl⟩
  push_cast
  field_simp

/-- C1 witness: the amended reload theorem at the normal difficulty,
step 45 of 180. -/
theorem c1_reload_witness :
    (((reloadStep normalD)^[45] rsNormal).reloading = true ∧
     ((reloadStep normalD)^[45] rsNormal).arrows = 0 ∧
     ((reloadStep normalD)^[45] rsNormal).reloadProgress
       = (45 : ℚ) / (normalD.reloadTime : ℚ)) ∧
    (((reloadStep normalD)^[normalD.reloadTime] rsNormal).reloading = false ∧
     ((reloadStep normalD)^[normalD.reloadTime] rsNormal).arrows
       = rsNormal.maxArrows ∧
     ((reloadStep normalD)^[normalD.reloadTime] rsNormal).reloadProgress = 0) :=
  c1_reload_amended normalD rsNormal rfl rfl rfl (by decide) 45 (by decide)
    (by decide)

/-! ## C10: teleport relocation touches only position and countdown -/

/-- C10: when a teleport enemy's countdown expires, the relocation writes
only the position (taken from a fresh `createEnemy` edge spawn) and the
reset countdown `100 + rT * 100`; health, velocity, speed and every other
field are unchanged — in particular the velocity is not re-aimed from the
new edge position. -/
theorem c10_teleport_relocation (canvasW canvasH rT : ℚ) (rnd : SpawnRnd)
    (e : Enemy) :
    (relocate canvasW canvasH rT rnd e).hp = e.hp ∧
    (relocate canvasW canvasH rT rnd e).maxHp = e.maxHp ∧
    (relocate canvasW canvasH rT rnd e).vx = e.vx ∧
    (relocate canvasW canvasH rT rnd e).vy = e.vy ∧
    (relocate canvasW canvasH rT rnd e).speed = e.speed ∧
    (relocate canvasW canvasH rT rnd e).damage = e.damage ∧
    (relocate canvasW canvasH rT rnd e).radius = e.radius ∧
    (relocate canvasW canvasH rT rnd e).points = e.points ∧
    (relocate canvasW canvasH rT rnd e).id = e.id ∧
    (relocate canvasW canvasH rT rnd e).pattern = e.pattern ∧
    (relocate canvasW canvasH rT rnd e).angle = e.angle ∧
    (relocate canvasW canvasH rT rnd e).zigzagTimer = e.zigzagTimer ∧
    (relocate canvasW canvasH rT rnd e).splitDone = e.splitDone ∧
    (relocate canvasW canvasH rT rnd e).pulseRadius = e.pulseRadius ∧
    (relocate canvasW canvasH rT rnd e).pulseGrowing = e.pulseGrowing ∧
    (relocate canvasW canvasH rT rnd e).flashTimer = e.flashTimer ∧
    (relocate canvasW canvasH rT rnd e).teleportTimer = 100 + rT * 100 ∧
    ((relocate canvasW canvasH rT rnd e).x,
     (relocate canvasW canvasH rT rnd e).y)
      = edgePos canvasW canvasH rnd.side rnd.rPos := by
  unfold relocate createEnemy Enemy.toType
  simp

/-! ## C7: bomb power-up -/

/-- C7 counterexample: with the bomb active exactly as a pickup leaves it
(`powerupTimer = 1`), the very next frame's power-up tick clears it with no
shot having occurred — the bomb does not stay active until the next
shot. -/
theorem c7_bomb_counterexample :
    (powerupTick { gameInit with activePowerup := some PowerKind.bomb,
                                 powerupTimer := 1 }).activePowerup = none ∧
    (powerupTick { gameInit with activePowerup := some PowerKind.bomb,
                                 powerupTimer := 1 }).powerupTimer = 0 := by
  constructor <;> decide

/-- C7 (amended): a bomb pickup arms the power-up with a one-frame timer
(cleared by the next frame's tick if no shot intervenes, first conjunct).
A shot while it is active creates no projectile; instead every enemy within
radius 180 of the pointer is removed, each awarding `points * wave`, a
30-particle ring plus 12 particles and one floating text per kill are
spawned, screen shake is raised to at least 14, the power-up is cleared
immediately, and the shot still costs one arrow. -/
theorem c7_bomb_amended (d : Difficulty) (canvasW canvasH mx my : ℚ)
    (aim : ℚ → ℚ × ℚ) (s : S) (halive : s.alive = true)
    (hrel : s.reloading = false) (harr : 0 < s.arrows)
    (hcd : s.shootCooldown = 0) (hbomb : s.activePowerup = some .bomb)
    (hcen : ¬ (mx = canvasW / 2 ∧ my = canvasH / 2)) :
    (powerupTick { s with activePowerup := some PowerKind.bomb,
                          powerupTimer := 1 }).activePowerup = none ∧
    ((shoot d canvasW canvasH mx my aim s).projectiles = s.projectiles ∧
     (shoot d canvasW canvasH mx my aim s).enemies
       = s.enemies.filter
           (fun e => !(decide ((e.x - mx) ^ 2 + (e.y - my) ^ 2 < 180 ^ 2))) ∧
     (shoot d canvasW canvasH mx my aim s).score
       = (s.enemies.filter
           (fun e => decide ((e.x - mx) ^ 2 + (e.y - my) ^ 2 < 180 ^ 2))).foldl
           (fun a e => a + e.points * (s.wave : ℤ)) s.score ∧
     (shoot d canvasW canvasH mx my aim s).activePowerup = none ∧
     (shoot d canvasW canvasH mx my aim s).powerupTimer = 0 ∧
     (shoot d canvasW canvasH mx my aim s).shakePower = max s.shakePower 14 ∧
     (shoot d canvasW canvasH mx my aim s).particles
       = s.particles + 12 * (s.enemies.filter
           (fun e => decide ((e.x - mx) ^ 2 + (e.y - my) ^ 2 < 180 ^ 2))).length
           + 30 ∧
     (shoot d canvasW canvasH mx my aim s).floats
       = s.floats + (s.enemies.filter
           (fun e => decide ((e.x - mx) ^ 2 + (e.y - my) ^ 2 < 180 ^ 2))).length ∧
     (shoot d canvasW canvasH mx my aim s).arrows = s.arrows - 1) := by
  have hz : (mx - canvasW / 2) ^ 2 + (my - canvasH / 2) ^ 2 ≠ 0 := by
    intro h0
    exact hcen (by
      obtain ⟨ha, hb⟩ := (sq_add_sq_eq_zero _ _).mp h0
      constructor <;> linarith [sub_eq_zero.mp ha, sub_eq_zero.mp hb])
  constructor
  · unfold powerupTick
    norm_num
  · have hA : ¬ s.arrows ≤ 0 := by omega
    have hC : ¬ 0 < s.shootCooldown := by omega
    simp only [shoot]
    rw [if_neg (by simp [halive, hrel, hA]), if_neg hC, if_neg hz,
        if_pos hbomb]
    simp only [bombExplosion]
    refine ⟨?_, ?_, ?_, ?_, ?_, ?_, ?_, ?_, ?_⟩ <;> (split <;> rfl)

/-! ## C8: zero-length-vector guards in the movement updates -/

/-- The chase update divides by the distance to board center with no guard:
it produces NaN (`none`) exactly when the enemy sits at the center. -/
theorem chase_none_iff (sqrtO : ℚ → ℚ) (cx cy : ℚ) (e : Enemy) :
    chaseMove sqrtO cx cy e = none ↔ e.x = cx ∧ e.y = cy := by
  unfold chaseMove
  by_cases h : (cx - e.x) ^ 2 + (cy - e.y) ^ 2 = 0
  · rw [if_pos h]
    obtain ⟨hx, hy⟩ := (sq_add_sq_eq_zero _ _).mp h
    simp [(sub_eq_zero.mp hx).symm, (sub_eq_zero.mp hy).symm]
  · rw [if_neg h]
    constructor
    · intro hc
      simp at hc
    · rintro ⟨hx, hy⟩
      exact absurd (by rw [hx, hy]; ring) h

/-- The zigzag kick divides by `e.speed` and renormalizes by the new
vector's length with no guard: it produces NaN (`none`) exactly when the
kick fires with zero speed or zero velocity. -/
theorem zigzag_none_iff (flip : Bool) (sqrtO : ℚ → ℚ) (e : Enemy) :
    zigzagMove flip sqrtO e = none ↔
      (e.zigzagTimer + 1) % 35 = 0 ∧
        (e.speed = 0 ∨ (e.vx = 0 ∧ e.vy = 0)) := by
  simp only [zigzagMove]
  by_cases hb : (e.zigzagTimer + 1) % 35 = 0
  · rw [if_pos hb]
    by_cases hs : e.speed = 0
    · rw [if_pos hs]
      simp [hb, hs]
    · rw [if_neg hs]
      have key :
          ((e.vx / e.speed + -e.vy / e.speed * (if flip then (1:ℚ) else -1)
              * (18/10)) * e.speed * (65/100)) ^ 2 +
          ((e.vy / e.speed + e.vx / e.speed * (if flip then (1:ℚ) else -1)
              * (18/10)) * e.speed * (65/100)) ^ 2
            = (8957/5000) * (e.vx ^ 2 + e.vy ^ 2) := by
        cases flip <;> simp only [reduceIte, Bool.false_eq_true, if_false] <;>
          field_simp <;> ring
      rw [key]
      by_cases hvv : e.vx ^ 2 + e.vy ^ 2 = 0
      · rw [if_pos (by rw [hvv]; ring)]
        obtain ⟨h1, h2⟩ := (sq_add_sq_eq_zero _ _).mp hvv
        simp [hb, h1, h2]
      · rw [if_neg (by intro hq; exact hvv (by linarith))]
        have hnz : ¬ (e.vx = 0 ∧ e.vy = 0) := by
          rintro ⟨a, b⟩
          exact hvv (by rw [a, b]; ring)
        simp [hb, hs, hnz]
  · rw [if_neg hb]
    simp [hb]

/-- The spiral update divides by the distance to board center and then
renormalizes; given that `sqrtO` is exact on the distance squared, the
cosine/sine pair is a unit vector and the speed is nonzero, it produces NaN
(`none`) exactly when the enemy sits at the center. -/
theorem spiral_none_iff (sqrtO : ℚ → ℚ) (c sn cx cy : ℚ) (e : Enemy)
    (hcs : c ^ 2 + sn ^ 2 = 1)
    (hd : (sqrtO ((cx - e.x) ^ 2 + (cy - e.y) ^ 2)) ^ 2
            = (cx - e.x) ^ 2 + (cy - e.y) ^ 2)
    (hsp : e.speed ≠ 0) :
    spiralMove sqrtO c sn cx cy e = none ↔ e.x = cx ∧ e.y = cy := by
  simp only [spiralMove]
  by_cases h : (cx - e.x) ^ 2 + (cy - e.y) ^ 2 = 0
  · rw [if_pos h]
    obtain ⟨hx, hy⟩ := (sq_add_sq_eq_zero _ _).mp h
    simp [(sub_eq_zero.mp hx).symm, (sub_eq_zero.mp hy).symm]
  · rw [if_neg h]
    have hdne : sqrtO ((cx - e.x) ^ 2 + (cy - e.y) ^ 2) ≠ 0 := by
      intro h0
      apply h
      rw [← hd, h0]
      ring
    have hu : ((cx - e.x) / sqrtO ((cx - e.x) ^ 2 + (cy - e.y) ^ 2)) ^ 2 +
              ((cy - e.y) / sqrtO ((cx - e.x) ^ 2 + (cy - e.y) ^ 2)) ^ 2 = 1 := by
      field_simp
      linarith [hd]
    have hs2 : 0 < e.speed ^ 2 := by positivity
    have hpos :
        0 < (c * e.speed * (8/10)
              + (cx - e.x) / sqrtO ((cx - e.x) ^ 2 + (cy - e.y) ^ 2)
                  * e.speed * (6/10)) ^ 2 +
            (sn * e.speed * (8/10)
              + (cy - e.y) / sqrtO ((cx - e.x) ^ 2 + (cy - e.y) ^ 2)
                  * e.speed * (6/10)) ^ 2 := by
      nlinarith [sq_nonneg (c + (cx - e.x) / sqrtO ((cx - e.x) ^ 2 + (cy - e.y) ^ 2)),
                 sq_nonneg (sn + (cy - e.y) / sqrtO ((cx - e.x) ^ 2 + (cy - e.y) ^ 2)),
                 hs2, hcs, hu,
                 mul_pos hs2 hs2]
    rw [if_neg hpos.ne']
    constructor
    · intro hc
      simp at hc
    · rintro ⟨hx, hy⟩
      exact absurd (by rw [hx, hy]; ring) h

/-- C8 (amended): no zero-length skip-guard exists in the movement-pattern
updates.  The chase and spiral updates divide by the distance to board
center and produce NaN exactly for an enemy sitting exactly at the center;
the zigzag kick produces NaN exactly when it fires with zero speed or zero
velocity.  In all other cases the divisors happen to be nonzero, so no NaN
arises there, but never because a guard skipped the update. -/
theorem c8_nan_guard_amended (sqrtO : ℚ → ℚ) (flip : Bool)
    (c sn cx cy : ℚ) (eC eZ eS : Enemy)
    (hcs : c ^ 2 + sn ^ 2 = 1)
    (hd : (sqrtO ((cx - eS.x) ^ 2 + (cy - eS.y) ^ 2)) ^ 2
            = (cx - eS.x) ^ 2 + (cy - eS.y) ^ 2)
    (hsp : eS.speed ≠ 0) :
    (chaseMove sqrtO cx cy eC = none ↔ eC.x = cx ∧ eC.y = cy) ∧
    (zigzagMove flip sqrtO eZ = none ↔
      (eZ.zigzagTimer + 1) % 35 = 0 ∧
        (eZ.speed = 0 ∨ (eZ.vx = 0 ∧ eZ.vy = 0))) ∧
    (spiralMove sqrtO c sn cx cy eS = none ↔ eS.x = cx ∧ eS.y = cy) :=
  ⟨chase_none_iff sqrtO cx cy eC, zigzag_none_iff flip sqrtO eZ,
   spiral_none_iff sqrtO c sn cx cy eS hcs hd hsp⟩

/-- C8 counterexample: a chase enemy exactly at board center makes the
unguarded distance division produce NaN — the update is not skipped and the
velocity becomes NaN, contradicting the claimed guard. -/
theorem c8_nan_guard_counterexample :
    chaseMove (fun _ => 0) 400 300 chaseAtCenter = none :=
  (chase_none_iff (fun _ => 0) 400 300 chaseAtCenter).mpr ⟨rfl, rfl⟩

/-- C8 witness: the amended characterization applied to concrete enemies
(chase at center, a straight scout for the zigzag instance, and a spiral
enemy at a 3-4-5 offset with an exact square-root value). -/
theorem c8_nan_guard_witness :
    (chaseMove sqrt25 400 300 chaseAtCenter = none ↔
      chaseAtCenter.x = 400 ∧ chaseAtCenter.y = 300) ∧
    (zigzagMove true sqrt25 scoutAtCenter = none ↔
      (scoutAtCenter.zigzagTimer + 1) % 35 = 0 ∧
        (scoutAtCenter.speed = 0 ∨
          (scoutAtCenter.vx = 0 ∧ scoutAtCenter.vy = 0))) ∧
    (spiralMove sqrt25 1 0 400 300 spiralNearCenter = none ↔
      spiralNearCenter.x = 400 ∧ spiralNearCenter.y = 300) :=
  c8_nan_guard_amended sqrt25 true 1 0 400 300 chaseAtCenter scoutAtCenter
    spiralNearCenter (by norm_num) (by norm_num [sqrt25, spiralNearCenter, scoutAtCenter])
    (by norm_num [spiralNearCenter, scoutAtCenter])


/-! ## C7 witness and C3 -/

/-- C7 witness: the amended bomb theorem applied to a concrete armed state
(pointer at (500, 300), one splitter in blast range on a normal-difficulty
800x600 session). -/
theorem c7_bomb_witness :
    (shoot normalD 800 600 500 300 (fun _ => (1, 0)) c7State).activePowerup
      = none ∧
    (shoot normalD 800 600 500 300 (fun _ => (1, 0)) c7State).projectiles
      = c7State.projectiles ∧
    (shoot normalD 800 600 500 300 (fun _ => (1, 0)) c7State).arrows
      = c7State.arrows - 1 := by
  obtain ⟨hA, h1, h2, h3, h4, h5, h6, h7, h8, h9⟩ :=
    c7_bomb_amended normalD 800 600 500 300 (fun _ => (1, 0)) c7State rfl rfl
      (by norm_num [c7State, gameInit]) rfl rfl (by norm_num)
  exact ⟨h4, h1, h9⟩

/-- C3: with the player at 0.1 hp and two straight scouts both in contact
with the bow in the same frame, the enemy-update pass drives hp to 0 at the
first contact and invokes the game-over callback, but the `return` inside
the `forEach` callback only exits that callback, so the second contacting
enemy triggers the callback again: `onGameOver` fires twice in one frame,
against the documented exactly-once contract. -/
theorem c3_gameover_double :
    (enemyPass normalD 400 300 800 600 (fun _ => mv0) c3State).map
        S.gameOverCalls = some 2 ∧
    (enemyPass normalD 400 300 800 600 (fun _ => mv0) c3State).map
        S.alive = some false := by
  norm_num [enemyPass, enemyUpdate, moveEnemy, pulseUpdate, oobCheck,
            c3State, mv0, scoutAtCenter, gameInit, normalD,
            List.range_succ,
            (show Pattern.straight ≠ Pattern.chase by decide),
            (show Pattern.straight ≠ Pattern.bounce by decide)]

/-! ## C5: per-kill scoring -/

/-- At combo 0 the rounded score formula is exactly `points * wave`. -/
theorem jsRound_combo_zero (pts : ℤ) (w : ℕ) :
    jsRound ((pts : ℚ) * (w : ℚ) * (1 + ((0 / 3 : ℕ) : ℚ) * (1/2))) = pts * w := by
  have h : ((pts : ℚ) * (w : ℚ) * (1 + ((0 / 3 : ℕ) : ℚ) * (1/2)))
      = ((pts * w : ℤ) : ℚ) := by
    push_cast
    ring
  rw [h, jsRound_intCast]

set_option maxHeartbeats 1600000

/-- C5: every projectile kill (a hit on a not-yet-dead enemy whose health
drops to 0) increases the score by exactly
`Math.round(points * wave * (1 + floor(combo / 3) * 0.5))` evaluated at the
combo in effect at the kill, increments the combo by 1, resets its decay
window to 90 frames, and at combo 0 the increase is exactly
`points * wave`. -/
theorem c5_kill_score (canvasW canvasH : ℚ) (r : ℕ → ℕ → KillRnd)
    (pi ei : ℕ) (s : S) (p : Projectile) (e : Enemy)
    (hdead : ei ∉ s.deadEnemies)
    (hp : s.projectiles[pi]? = some p)
    (he : s.enemies[ei]? = some e)
    (hhit : (p.x - e.x) ^ 2 + (p.y - e.y) ^ 2 < (p.radius + e.radius) ^ 2)
    (hkill : e.hp ≤ 1) :
    (procHit canvasW canvasH r pi ei s).score
      = s.score + jsRound ((e.points : ℚ) * (s.wave : ℚ)
          * (1 + ((s.combo / 3 : ℕ) : ℚ) * (1/2))) ∧
    (procHit canvasW canvasH r pi ei s).combo = s.combo + 1 ∧
    (procHit canvasW canvasH r pi ei s).comboTimer = 90 ∧
    (s.combo = 0 →
      (procHit canvasW canvasH r pi ei s).score
        = s.score + e.points * (s.wave : ℤ)) := by
  have hk1 : e.hp - 1 ≤ 0 := by omega
  simp only [procHit, if_neg hdead, hp, he]
  rw [if_pos hhit]
  simp only [killProc, if_pos hk1]
  refine ⟨?_, ?_, ?_, ?_⟩
  · simp only [apply_ite S.score, apply_ite S.deadEnemies, ite_self]
  · simp only [apply_ite S.combo, apply_ite S.deadEnemies, ite_self]
  · simp only [apply_ite S.comboTimer, apply_ite S.deadEnemies, ite_self]
  · intro h0
    rw [h0]
    simp only [apply_ite S.score, apply_ite S.deadEnemies, ite_self]
    rw [jsRound_combo_zero]

/-- C5 witness: the scoring theorem at a concrete one-hit 10-point enemy,
wave 1, combo 0. -/
theorem c5_kill_score_witness :
    (procHit 800 600 (fun _ _ => kr0) 0 0 (c5State 10 0 1 0)).score = 10 ∧
    (procHit 800 600 (fun _ _ => kr0) 0 0 (c5State 10 0 1 0)).combo = 1 ∧
    (procHit 800 600 (fun _ _ => kr0) 0 0 (c5State 10 0 1 0)).comboTimer
      = 90 := by
  obtain ⟨h1, h2, h3, h4⟩ :=
    c5_kill_score 800 600 (fun _ _ => kr0) 0 0 (c5State 10 0 1 0) c4Proj
      (c5Enemy 10) (by simp [c5State, gameInit]) rfl rfl
      (by norm_num [c4Proj, c5Enemy]) (by norm_num [c5Enemy])
  refine ⟨?_, by simpa [c5State] using h2, h3⟩
  have h5 := h4 rfl
  simpa [c5State, c5Enemy, gameInit] using h5

/-! ## C6: splitter offspring -/

/-- The split offsets `(Math.random() - 0.5) * 50` stay within 25 of the
death position. -/
theorem off_abs_le (t : ℚ) (h0 : 0 ≤ t) (h1 : t ≤ 1) :
    |(t - 1/2) * 50| ≤ 25 := by
  rw [abs_mul, show |(50:ℚ)| = 50 by norm_num]
  have h : |t - 1/2| ≤ 1/2 := abs_le.mpr ⟨by linarith, by linarith⟩
  linarith

/-- Reading back the two elements appended at the end of a list. -/
theorem append_two_getElem {α : Type} (l : List α) (a b : α) :
    (l ++ [a, b])[l.length]? = some a ∧
    (l ++ [a, b])[l.length + 1]? = some b := by
  constructor
  · rw [List.getElem?_append_right (le_refl _)]
    simp
  · rw [List.getElem?_append_right (by omega)]
    simp

/-- C6 (amended): a projectile kill of a splitter whose `splitDone` flag is
still clear appends exactly two scouts (one-hit enemies, `maxHp = hp = 1`)
within 25 of the death position and sets the flag on the corpse; with the
flag already set no offspring are added, so a splitter never splits twice.
(Deaths that bypass this branch — bomb blast, bow contact — produce no
offspring at all, see the counterexample.) -/
theorem c6_split_amended (canvasW canvasH : ℚ) (r : ℕ → ℕ → KillRnd)
    (pi ei : ℕ) (s : S) (p : Projectile) (e : Enemy)
    (hdead : ei ∉ s.deadEnemies)
    (hp : s.projectiles[pi]? = some p)
    (he : s.enemies[ei]? = some e)
    (hhit : (p.x - e.x) ^ 2 + (p.y - e.y) ^ 2 < (p.radius + e.radius) ^ 2)
    (hkill : e.hp ≤ 1) (hid : e.id = "splitter")
    (h1x0 : 0 ≤ (r pi ei).off1x) (h1x1 : (r pi ei).off1x ≤ 1)
    (h1y0 : 0 ≤ (r pi ei).off1y) (h1y1 : (r pi ei).off1y ≤ 1)
    (h2x0 : 0 ≤ (r pi ei).off2x) (h2x1 : (r pi ei).off2x ≤ 1)
    (h2y0 : 0 ≤ (r pi ei).off2y) (h2y1 : (r pi ei).off2y ≤ 1) :
    (e.splitDone = false →
      (procHit canvasW canvasH r pi ei s).enemies.length
          = s.enemies.length + 2 ∧
      (∃ sc1, (procHit canvasW canvasH r pi ei s).enemies[s.enemies.length]?
            = some sc1 ∧
          sc1.id = "scout" ∧ sc1.maxHp = 1 ∧ sc1.hp = 1 ∧
          |sc1.x - e.x| ≤ 25 ∧ |sc1.y - e.y| ≤ 25) ∧
      (∃ sc2,
          (procHit canvasW canvasH r pi ei s).enemies[s.enemies.length + 1]?
            = some sc2 ∧
          sc2.id = "scout" ∧ sc2.maxHp = 1 ∧ sc2.hp = 1 ∧
          |sc2.x - e.x| ≤ 25 ∧ |sc2.y - e.y| ≤ 25) ∧
      (∃ e1, (procHit canvasW canvasH r pi ei s).enemies[ei]? = some e1 ∧
          e1.splitDone = true)) ∧
    (e.splitDone = true →
      (procHit canvasW canvasH r pi ei s).enemies.length
          = s.enemies.length) := by
  have hk1 : e.hp - 1 ≤ 0 := by omega
  have hei : ei < s.enemies.length := by
    by_contra hcon
    push_neg at hcon
    rw [List.getElem?_eq_none hcon] at he
    cases he
  simp only [procHit, if_neg hdead, hp, he]
  rw [if_pos hhit]
  simp only [killProc, if_pos hk1]
  constructor
  · intro hsd
    simp only [apply_ite S.enemies, apply_ite S.deadEnemies, ite_self]
    rw [if_pos (show e.id = "splitter" ∧ e.splitDone = false from
          ⟨hid, hsd⟩)]
    have hlen : ((s.enemies.set ei
        { e with hp := e.hp - 1, flashTimer := 7 }).set ei
        { e with hp := e.hp - 1, splitDone := true,
                 flashTimer := 7 }).length = s.enemies.length := by
      simp [List.length_set]
    refine ⟨?_, ?_, ?_, ?_⟩
    · simp [List.length_append, List.length_set]
    · obtain ⟨ha, _⟩ := append_two_getElem
        ((s.enemies.set ei { e with hp := e.hp - 1, flashTimer := 7 }).set ei
          { e with hp := e.hp - 1, splitDone := true, flashTimer := 7 })
        (createEnemy ((ENEMY_TYPES.find? (fun t => t.id == "scout")).getD
            scoutType) canvasW canvasH (r pi ei).sp1
          (some (e.x + ((r pi ei).off1x - 1/2) * 50,
                 e.y + ((r pi ei).off1y - 1/2) * 50)))
        (createEnemy ((ENEMY_TYPES.find? (fun t => t.id == "scout")).getD
            scoutType) canvasW canvasH (r pi ei).sp2
          (some (e.x + ((r pi ei).off2x - 1/2) * 50,
                 e.y + ((r pi ei).off2y - 1/2) * 50)))
      rw [hlen] at ha
      refine ⟨_, ha, rfl, rfl, rfl, ?_, ?_⟩
      · simpa [createEnemy, add_sub_cancel_left]
          using off_abs_le _ h1x0 h1x1
      · simpa [createEnemy, add_sub_cancel_left]
          using off_abs_le _ h1y0 h1y1
    · obtain ⟨_, hb⟩ := append_two_getElem
        ((s.enemies.set ei { e with hp := e.hp - 1, flashTimer := 7 }).set ei
          { e with hp := e.hp - 1, splitDone := true, flashTimer := 7 })
        (createEnemy ((ENEMY_TYPES.find? (fun t => t.id == "scout")).getD
            scoutType) canvasW canvasH (r pi ei).sp1
          (some (e.x + ((r pi ei).off1x - 1/2) * 50,
                 e.y + ((r pi ei).off1y - 1/2) * 50)))
        (createEnemy ((ENEMY_TYPES.find? (fun t => t.id == "scout")).getD
            scoutType) canvasW canvasH (r pi ei).sp2
          (some (e.x + ((r pi ei).off2x - 1/2) * 50,
                 e.y + ((r pi ei).off2y - 1/2) * 50)))
      rw [hlen] at hb
      refine ⟨_, hb, rfl, rfl, rfl, ?_, ?_⟩
      · simpa [createEnemy, add_sub_cancel_left]
          using off_abs_le _ h2x0 h2x1
      · simpa [createEnemy, add_sub_cancel_left]
          using off_abs_le _ h2y0 h2y1
    · refine ⟨{ e with hp := e.hp - 1, splitDone := true, flashTimer := 7 },
        ?_, rfl⟩
      rw [List.getElem?_append]
      rw [if_pos (show ei < ((s.enemies.set ei
          { e with hp := e.hp - 1, flashTimer := 7 }).set ei
          { e with hp := e.hp - 1, splitDone := true,
                   flashTimer := 7 }).length from by
        simp only [List.length_set]; exact hei)]
      exact List.getElem?_set_eq_of_lt _
        (by simp only [List.length_set]; exact hei)
  · intro hsd
    simp only [apply_ite S.enemies, apply_ite S.deadEnemies, ite_self]
    rw [if_neg (by simp [hsd])]
    simp [List.length_set]

/-- C6 counterexample: a splitter killed by a bomb blast is removed without
any offspring — the claim that a splitter produces exactly two offspring
whenever it dies fails for bomb kills. -/
theorem c6_split_counterexample :
    (bombExplosion 400 300 c6State).enemies = [] ∧
    (bombExplosion 400 300 c6State).totalKills = c6State.totalKills + 1 := by
  constructor <;>
    norm_num [bombExplosion, c6State, splitterNearDeath, gameInit]

/-- C6 witness: the amended split theorem at a concrete splitter one hit
from death. -/
theorem c6_split_witness :
    (procHit 800 600 (fun _ _ => kr0) 0 0 c6HitState).enemies.length = 3 := by
  obtain ⟨hf, _⟩ :=
    c6_split_amended 800 600 (fun _ _ => kr0) 0 0 c6HitState c6Proj
      splitterNearDeath (by simp [c6HitState, gameInit]) rfl rfl
      (by norm_num [c6Proj, splitterNearDeath])
      (by norm_num [splitterNearDeath]) rfl
      (by norm_num [kr0]) (by norm_num [kr0]) (by norm_num [kr0])
      (by norm_num [kr0]) (by norm_num [kr0]) (by norm_num [kr0])
      (by norm_num [kr0]) (by norm_num [kr0])
  have hl := (hf rfl).1
  simpa [c6HitState] using hl

/-! ## C4: enemy health bookkeeping -/

/-- Factory output: `createEnemy` starts health at the template's `maxHp`. -/
theorem createEnemy_hp (t : EnemyType) (cw ch : ℚ) (rnd : SpawnRnd)
    (ov : Option (ℚ × ℚ)) :
    (createEnemy t cw ch rnd ov).hp = t.maxHp ∧
    (createEnemy t cw ch rnd ov).maxHp = t.maxHp := ⟨rfl, rfl⟩

/-- The scout lookup in the split branch resolves to the scout template. -/
theorem find_scout :
    (ENEMY_TYPES.find? (fun t => t.id == "scout")).getD scoutType
      = scoutType := rfl

/-- Updating one slot preserves the invariant when the new enemy satisfies
it. -/
theorem invOn_set (es : List Enemy) (dead : List ℕ) (h : InvOn es dead)
    (i : ℕ) (a : Enemy)
    (ha : 0 ≤ a.hp ∧ a.hp ≤ a.maxHp ∧ (a.hp = 0 → i ∈ dead)) :
    InvOn (es.set i a) dead := by
  intro j e' hj
  rw [List.getElem?_set] at hj
  rcases eq_or_ne i j with rfl | hne
  · rw [if_pos rfl] at hj
    split_ifs at hj
    cases hj
    exact ha
  · rw [if_neg hne] at hj
    exact h j e' hj

/-- Growing the removal-mark list preserves the invariant. -/
theorem invOn_mono_dead (es : List Enemy) (dead dead' : List ℕ)
    (hsub : ∀ x, x ∈ dead → x ∈ dead') (h : InvOn es dead) :
    InvOn es dead' := by
  intro i e he
  obtain ⟨a, b, c⟩ := h i e he
  exact ⟨a, b, fun h0 => hsub _ (c h0)⟩

/-- Appending two healthy enemies preserves the invariant. -/
theorem invOn_append2 (es : List Enemy) (dead : List ℕ) (a b : Enemy)
    (h : InvOn es dead)
    (hha : 0 ≤ a.hp ∧ a.hp ≤ a.maxHp ∧ a.hp ≠ 0)
    (hhb : 0 ≤ b.hp ∧ b.hp ≤ b.maxHp ∧ b.hp ≠ 0) :
    InvOn (es ++ [a, b]) dead := by
  intro j e' hj
  rw [List.getElem?_append] at hj
  split_ifs at hj with hlt
  · exact h j e' hj
  · rcases hk : j - es.length with _ | k
    · rw [hk] at hj
      simp at hj
      cases hj
      exact ⟨hha.1, hha.2.1, fun h0 => absurd h0 hha.2.2⟩
    · rcases k with _ | k'
      · rw [hk] at hj
        simp at hj
        cases hj
        exact ⟨hhb.1, hhb.2.1, fun h0 => absurd h0 hhb.2.2⟩
      · rw [hk] at hj
        simp at hj

/-- One iteration of the hit callback preserves the health invariant:
hits decrement health by exactly 1, an enemy never drops below 0 (enemies
already marked dead are skipped), and an enemy reaching 0 is marked for
removal in the same frame. -/
theorem enemyInv_procHit (canvasW canvasH : ℚ) (r : ℕ → ℕ → KillRnd)
    (pi ei : ℕ) (s : S) (hInv : EnemyInv s) :
    EnemyInv (procHit canvasW canvasH r pi ei s) := by
  unfold procHit
  by_cases hd : ei ∈ s.deadEnemies
  · rwa [if_pos hd]
  rw [if_neg hd]
  rcases hp : s.projectiles[pi]? with _ | p
  · exact hInv
  rcases he : s.enemies[ei]? with _ | e
  · exact hInv
  dsimp only
  by_cases hh : (p.x - e.x) ^ 2 + (p.y - e.y) ^ 2 < (p.radius + e.radius) ^ 2
  case neg => rw [if_neg hh]; exact hInv
  rw [if_pos hh]
  obtain ⟨h0, h1, h2⟩ := hInv ei e he
  have hge1 : 1 ≤ e.hp := by
    rcases eq_or_lt_of_le h0 with h | h
    · exact absurd (h2 h.symm) hd
    · omega
  by_cases hk : e.hp - 1 ≤ 0
  · -- the hit kills: health goes to exactly 0 and the index is marked
    have hhp1 : e.hp = 1 := by omega
    rw [if_pos hk]
    simp only [killProc, EnemyInv, apply_ite S.enemies,
               apply_ite S.deadEnemies, ite_self]
    rw [if_neg hd]
    by_cases hsp : e.id = "splitter" ∧ e.splitDone = false
    · rw [if_pos hsp]
      refine invOn_append2 _ _ _ _ ?_ ?_ ?_
      · refine invOn_set _ _ ?_ ei _ ?_
        · refine invOn_set _ _ ?_ ei _ ?_
          · exact invOn_mono_dead _ _ _
              (fun x hx => List.mem_append.mpr (Or.inl hx)) hInv
          · refine ⟨by simp; omega, by simp; omega, fun _ => ?_⟩
            simp
        · refine ⟨by simp; omega, by simp; omega, fun _ => ?_⟩
          simp
      · rw [find_scout]
        refine ⟨by simp [createEnemy, scoutType], ?_, ?_⟩
        · simp [createEnemy, scoutType]
        · simp [createEnemy, scoutType]
      · rw [find_scout]
        refine ⟨by simp [createEnemy, scoutType], ?_, ?_⟩
        · simp [createEnemy, scoutType]
        · simp [createEnemy, scoutType]
    · rw [if_neg hsp]
      refine invOn_set _ _ ?_ ei _ ?_
      · exact invOn_mono_dead _ _ _
          (fun x hx => List.mem_append.mpr (Or.inl hx)) hInv
      · refine ⟨by simp; omega, by simp; omega, fun _ => ?_⟩
        simp
  · -- non-lethal hit: health stays at least 1
    rw [if_neg hk]
    simp only [EnemyInv, apply_ite S.enemies, apply_ite S.deadEnemies,
               ite_self]
    refine invOn_set _ _ hInv ei _ ?_
    refine ⟨by simp; omega, by simp; omega, fun hc => ?_⟩
    simp at hc
    omega

/-- Folding an invariant-preserving step over an index list preserves the
invariant. -/
theorem foldl_inv {σ : Type} (P : σ → Prop) (f : ℕ → σ → σ)
    (hf : ∀ i x, P x → P (f i x)) :
    ∀ (l : List ℕ) (x : σ), P x → P (l.foldl (fun st i => f i st) x) := by
  intro l
  induction l with
  | nil => intro x hx; exact hx
  | cons a as ih =>
    intro x hx
    exact ih _ (hf a x hx)

/-- The inner hit sweep preserves the invariant. -/
theorem enemyInv_innerHits (canvasW canvasH : ℚ) (r : ℕ → ℕ → KillRnd)
    (pi : ℕ) (s : S) (hInv : EnemyInv s) :
    EnemyInv (innerHits canvasW canvasH r pi s) :=
  foldl_inv EnemyInv (fun ei st => procHit canvasW canvasH r pi ei st)
    (fun ei st h => enemyInv_procHit canvasW canvasH r pi ei st h)
    (List.range s.enemies.length) s hInv

/-- The whole hit pass preserves the invariant. -/
theorem enemyInv_hitPass (canvasW canvasH : ℚ) (r : ℕ → ℕ → KillRnd)
    (s : S) (hInv : EnemyInv s) :
    EnemyInv (hitPass canvasW canvasH r s) :=
  foldl_inv EnemyInv (fun pi st => innerHits canvasW canvasH r pi st)
    (fun pi st h => enemyInv_innerHits canvasW canvasH r pi st h)
    (List.range s.projectiles.length) s hInv

/-- Members surviving the index-based removal were present at an unmarked
index. -/
theorem mem_removeIdxsFrom (dead : List ℕ) :
    ∀ (l : List Enemy) (i : ℕ) (e : Enemy), e ∈ removeIdxsFrom dead i l →
      ∃ j, l[j]? = some e ∧ (i + j) ∉ dead := by
  intro l
  induction l with
  | nil => intro i e he; simp [removeIdxsFrom] at he
  | cons a as ih =>
    intro i e he
    unfold removeIdxsFrom at he
    by_cases hd : i ∈ dead
    · rw [if_pos hd] at he
      obtain ⟨j, hj, hnd⟩ := ih (i + 1) e he
      refine ⟨j + 1, by simpa using hj, ?_⟩
      rw [show i + (j + 1) = (i + 1) + j by omega]
      exact hnd
    · rw [if_neg hd] at he
      rcases List.mem_cons.mp he with rfl | he2
      · exact ⟨0, by simp, by simpa using hd⟩
      · obtain ⟨j, hj, hnd⟩ := ih (i + 1) e he2
        refine ⟨j + 1, by simpa using hj, ?_⟩
        rw [show i + (j + 1) = (i + 1) + j by omega]
        exact hnd

/-- After the removal step no surviving enemy has health 0. -/
theorem removeDead_pos (s : S) (h : EnemyInv s) :
    ∀ e' ∈ (removeDead s).enemies, 0 < e'.hp := by
  intro e' he'
  unfold removeDead at he'
  obtain ⟨j, hj, hnd⟩ := mem_removeIdxsFrom s.deadEnemies s.enemies 0 e' he'
  rw [Nat.zero_add] at hnd
  obtain ⟨h0, h1, h2⟩ := h j e' hj
  rcases eq_or_lt_of_le h0 with hz | hpos
  · exact absurd (h2 hz.symm) hnd
  · exact hpos

/-- The n-overlapping-projectiles scenario: after the first `j` projectile
sweeps (`j ≤ n < maxHp`), the single enemy has lost exactly `j` health and
is not marked for removal. -/
theorem hit_scenario (canvasW canvasH : ℚ) (r : ℕ → ℕ → KillRnd) (n m : ℕ)
    (hnm : n < m) (j : ℕ) (hj : j ≤ n) :
    (List.range j).foldl (fun st pi => innerHits canvasW canvasH r pi st)
        (c4State n m)
      = { c4State n m with
          enemies := [{ c4Enemy m with hp := (m : ℤ) - j }],
          particles := 4 * j } := by
  induction j with
  | zero =>
    simp only [List.range_zero, List.foldl_nil]
    simp [c4State, c4Enemy, gameInit]
  | succ k ih =>
    have hk : k ≤ n := by omega
    have hklt : k < n := by omega
    rw [List.range_succ, List.foldl_append, ih hk]
    simp only [List.foldl_cons, List.foldl_nil]
    have hnk : ¬ ((m : ℤ) - (k : ℤ) - 1 ≤ 0) := by
      have : (k : ℤ) + 1 < (m : ℤ) := by exact_mod_cast Nat.lt_of_lt_of_le (Nat.succ_lt_succ hklt) (Nat.succ_le_of_lt hnm)
      omega
    norm_num [innerHits, procHit, c4State, c4Enemy, c4Proj, gameInit,
              List.getElem?_replicate, hklt, hnk, List.range_succ]
    rw [if_neg (show ¬ ((m : ℤ) ≤ 1 + (k : ℤ)) by omega)]
    simp [S.mk.injEq, Enemy.mk.injEq, c4State, c4Enemy, gameInit]
    refine ⟨?_, ?_⟩
    · push_cast
      ring
    · omega

/-- C4: projectile hits decrement enemy health by exactly 1 and the health
bookkeeping is safe: the `[0, maxHp]` invariant (with 0-health enemies
marked for removal) is preserved by the whole hit pass even when several
projectiles overlap one enemy in a frame, every enemy surviving the
same-frame removal step has positive health, and in the single-enemy
scenario `n` non-lethal overlapping hits leave health exactly
`maxHp - n` with no removal mark. -/
theorem c4_enemy_health (canvasW canvasH : ℚ) (r : ℕ → ℕ → KillRnd)
    (s : S) (hInv : EnemyInv s) (n m : ℕ) (hnm : n < m) :
    EnemyInv (hitPass canvasW canvasH r s) ∧
    (∀ e' ∈ (removeDead (hitPass canvasW canvasH r s)).enemies,
      0 < e'.hp) ∧
    (hitPass canvasW canvasH r (c4State n m)).enemies
      = [{ c4Enemy m with hp := (m : ℤ) - n }] ∧
    (hitPass canvasW canvasH r (c4State n m)).deadEnemies = [] := by
  have hpass := enemyInv_hitPass canvasW canvasH r s hInv
  have hlen : (c4State n m).projectiles.length = n := by
    simp [c4State, gameInit]
  have hrun := hit_scenario canvasW canvasH r n m hnm n (le_refl n)
  refine ⟨hpass, removeDead_pos _ hpass, ?_, ?_⟩
  · unfold hitPass
    rw [hlen, hrun]
  · unfold hitPass
    rw [hlen, hrun]
    simp [c4State, gameInit]

/-- C4 witness: the health theorem at the empty fresh state and the
concrete 1-projectile, 2-health scenario. -/
theorem c4_enemy_health_witness :
    EnemyInv (hitPass 800 600 (fun _ _ => kr0) gameInit) ∧
    (hitPass 800 600 (fun _ _ => kr0) (c4State 1 2)).enemies
      = [{ c4Enemy 2 with hp := ((2 : ℕ) : ℤ) - ((1 : ℕ) : ℤ) }] ∧
    (hitPass 800 600 (fun _ _ => kr0) (c4State 1 2)).deadEnemies = [] := by
  obtain ⟨h1, h2, h3, h4⟩ :=
    c4_enemy_health 800 600 (fun _ _ => kr0) gameInit
      (by intro i e he; simp [gameInit] at he) 1 2 (by omega)
  exact ⟨h1, h3, h4⟩

end NeonArcher
